import Mathlib

set_option maxHeartbeats 1000000
set_option maxRecDepth 100000

/-!
Shallow embedding of `proliantutils/hpsum/hpsum_controller.py`.

The log file, the by-label device directory listing and the outcomes of the
external collaborators (image validator, iLO client, checksum verifier,
`mount`, the hpsum process, `umount`, `rmtree`) are modelled as explicit
inputs of the embedded functions; filesystem/side-effect steps of
`update_firmware` are recorded in an event trace.
-/

/-- Fixed path of the hpsum log file (constant `OUTPUT_FILE` in the source). -/
def OUTPUT_FILE : String := "/var/hp/log/localhost/hpsum_log.txt"

/-- Relative path of the hpsum binary inside the mounted ISO (constant `HPSUM_LOCATION`). -/
def HPSUM_LOCATION : String := "hp/swpackages/hpsum"

/-- Exit-code lookup table `EXIT_CODE_TO_STRING`; `none` models a missing key of `dict.get`. -/
def EXIT_CODE_TO_STRING (code : Int) : Option String :=
  if code = 0 then some "The smart component was installed successfully."
  else if code = 1 then
    some "The smart component was installed successfully, but the system must be restarted."
  else if code = 3 then
    some "The smart component was not installed. Node is already up-to-date."
  else if code = 253 then some "The installation of the component failed."
  else none

/-- Rendering, by Python's %s conversion, of a value that is either a string or None. -/
def pyStr (o : Option String) : String := o.getD "None"

/-- First position at or beyond `i` where `pat` occurs in the scanned list
(helper for Python's `str.find`). -/
def pyFindAux (pat : List Char) : List Char → Nat → Option Nat
  | [], i => if pat = [] then some i else none
  | c :: t, i =>
    if (c :: t).take pat.length = pat then some i else pyFindAux pat t (i + 1)

/-- Python `s.find(pat)`: first index of `pat` in `s`, and `-1` when absent. -/
def pyFind (s pat : List Char) : Int :=
  match pyFindAux pat s 0 with
  | some i => (i : Int)
  | none => -1

/-- Python substring membership test (`pat in s`). -/
def containsSub (s pat : List Char) : Bool := (pyFindAux pat s 0).isSome

/-- Normalisation of one slice bound, exactly as Python does for `s[a:b]`. -/
def normIdx (len : Nat) (i : Int) : Nat :=
  if i < 0 then (max ((len : Int) + i) 0).toNat else min i.toNat len

/-- Python slice `s[a:b]` on a list of characters. -/
def pySlice (s : List Char) (a b : Int) : List Char :=
  (s.take (normIdx s.length b)).drop (normIdx s.length a)

/-- Helper of `splitNN`, carrying the current segment reversed. -/
def splitNNAux : List Char → List Char → List (List Char)
  | [], acc => [acc.reverse]
  | '\n' :: '\n' :: t, acc => acc.reverse :: splitNNAux t []
  | c :: t, acc => splitNNAux t (c :: acc)

/-- Embedding of `re.split('\n\n', s)`: split at each non-overlapping
occurrence of two consecutive newline characters, scanning left to right. -/
def splitNN (s : List Char) : List (List Char) := splitNNAux s []

/-- The substring looked for in each segment ('Success'). -/
def successWord : List Char := "Success".data

/-- Start marker of the parsed log region. -/
def deployedMarker : String := "Deployed Components:"

/-- End marker of the parsed log region. -/
def exitMarker : String := "Exit status:"

/-- Loop body accumulating the `(success, failed)` counters of `_parse_hpsum_ouput`. -/
def countStep (p : Nat × Nat) (line : List Char) : Nat × Nat :=
  if line.isEmpty then p
  else if containsSub line successWord = false then (p.1, p.2 + 1)
  else (p.1 + 1, p.2)

/-- The `(success, failed)` counters accumulated over all split segments. -/
def countSegs (segs : List (List Char)) : Nat × Nat := segs.foldl countStep (0, 0)

/-- The sliced log region
`output_data[output_data.find('Deployed Components:') + len('Deployed Components:') :
output_data.find('Exit status:')]`. -/
def retData (data : List Char) : List Char :=
  pySlice data (pyFind data deployedMarker.data + (deployedMarker.length : Int))
    (pyFind data exitMarker.data)

/-- The summary format string of `_parse_hpsum_ouput`, applied to a description
and the two counters. -/
def summaryString (desc : String) (success failed : Nat) : String :=
  "Summary: " ++ desc ++ " Status of updated components: Total: "
    ++ toString (success + failed) ++ " Success: " ++ toString success
    ++ " Failed: " ++ toString failed ++ "."

/-- The function `_parse_hpsum_ouput`. The log file is modelled as
`Option String`: `none` when `os.path.exists(OUTPUT_FILE)` is false, otherwise
`some` of the file's contents. -/
def _parse_hpsum_ouput (exit_code : Int) (logFile : Option String) : Option String :=
  if exit_code = 3 then some ("Summary: " ++ pyStr (EXIT_CODE_TO_STRING exit_code))
  else if exit_code = 0 ∨ exit_code = 1 ∨ exit_code = 253 then
    match logFile with
    | some output_data =>
        some (summaryString (pyStr (EXIT_CODE_TO_STRING exit_code))
          (countSegs (splitNN (retData output_data.data))).1
          (countSegs (splitNN (retData output_data.data))).2)
    | none => some "UPDATE STATUS: UNKNOWN"
  else none

/-- Outcome of `processutils.execute` of the hpsum binary: `ok` when the process
layer reports no failure, `fails` for a raised `ProcessExecutionError` carrying
the exit code and `str(e)`. -/
inductive ProcResult where
  | ok (stdout stderr : String)
  | fails (exit_code : Int) (errStr : String)
deriving DecidableEq

/-- Result of `_execute_hpsum`: a normal return (Python value `None` or a
string), or a raised `HpsumOperationError`. -/
inductive HpsumResult where
  | ret (result : Option String)
  | opError (reason : String)
deriving DecidableEq

/-- The command-selection string `' --c ' + ' --c '.join(components) if components else ''`. -/
def hpsumCmd : Option (List String) → String
  | none => ""
  | some cs => if cs.isEmpty then "" else " --c " ++ String.intercalate " --c " cs

/-- The function `_execute_hpsum`. The hpsum process run is modelled by `proc`,
the state of the log file at `OUTPUT_FILE` by `logFile`. On `ok` the source
falls off the end of the function, hence returns Python `None`; on a reported
failure it returns the parse result when that is truthy, otherwise raises. -/
def _execute_hpsum (hpsum_file_path : String) (components : Option (List String))
    (proc : ProcResult) (logFile : Option String) : HpsumResult :=
  let cmd := hpsumCmd components
  match proc with
  | .ok _ _ => .ret none
  | .fails exit_code errStr =>
      match _parse_hpsum_ouput exit_code logFile with
      | some result =>
          if result = "" then
            .opError ("Unable to perform hpsum firmware update on the node. Error: " ++ errStr)
          else .ret (some result)
      | none =>
          .opError ("Unable to perform hpsum firmware update on the node. Error: " ++ errStr)

/-- Side-effect steps of `update_firmware` recorded in order: temporary
directory creation, the `mount` call, the hpsum invocation, the best-effort
`umount` (`trycmd`) and the best-effort directory removal
(`shutil.rmtree(..., ignore_errors=True)`); `ok` records whether the
best-effort command itself succeeded, which the source discards. -/
inductive Event where
  | mkdtemp (dir : String)
  | mountCall (dev dir : String)
  | execCall (path : String) (cmd : String)
  | umountCall (dir : String) (ok : Bool)
  | rmtreeCall (dir : String) (ok : Bool)
deriving DecidableEq

/-- Outcome of `update_firmware`: a normal return, a raised
`HpsumOperationError`, the `UnboundLocalError` of an unassigned local, or a
propagated iLO client error. -/
inductive UFOutcome where
  | ret (result : Option String)
  | opError (reason : String)
  | unboundLocal
  | iloError (e : String)
deriving DecidableEq

/-- The scanned by-label directory (`vmedia_device_dir` in the source). -/
def vmedia_device_dir : String := "/dev/disk/by-label/"

/-- The test `fnmatch.fnmatch(file, 'SPP*')`: the name starts with `SPP`. -/
def matchSPP (s : String) : Bool := s.data.take 3 == ['S', 'P', 'P']

/-- The discovery loop `for file in os.listdir(...): if fnmatch...(file,'SPP*'):
vmedia_device_file = os.path.join(...)`: the final value of the assigned local,
and `none` when the local was never assigned. -/
def lastMatch (listing : List String) : Option String :=
  listing.foldl (fun acc file => if matchSPP file then some file else acc) none

/-- `os.path.join` for the shapes used in this module (non-empty first part,
relative second part): append, inserting a separator unless one is already
trailing. -/
def osPathJoin (a b : String) : String :=
  if a.data.getLast? = some '/' then a ++ b else a ++ "/" ++ b

/-- Behaviour of all external collaborators during one `update_firmware` run:
each `Option String` error field is `none` when that step succeeds and `some e`
when it raises with detail `e`; `listing` is the by-label directory contents,
`pathExists` models `os.path.exists`, `tmpdir` the `tempfile.mkdtemp` result,
`component` the request's raw comma-separated component field, `logFile` the
hpsum log state, and `umountOk`/`rmtreeOk` whether the two best-effort cleanup
steps themselves succeed. -/
structure Env where
  hrefError : Option String
  ejectError : Option String
  insertError : Option String
  listing : List String
  pathExists : String → Bool
  checksumError : Option String
  tmpdir : String
  mountError : Option String
  component : Option String
  hpsumProc : ProcResult
  logFile : Option String
  umountOk : Bool
  rmtreeOk : Bool

/-- Processing of the request's raw component field inside `update_firmware`:
`if components: components = components.strip().split(',')`; `none` stands for
a falsy value (Python `None` or the empty string). -/
def pyComponents : Option String → Option (List String)
  | none => none
  | some s => if s.isEmpty then none else some (s.trim.splitOn ",")

/-- Test for a recorded `rmtree` call. -/
def isRmtreeEvent : Event → Bool
  | .rmtreeCall _ _ => true
  | _ => false

/-- Test for a recorded `umount` call. -/
def isUmountEvent : Event → Bool
  | .umountCall _ _ => true
  | _ => false

/-- The `try ... finally: shutil.rmtree(...)` block of `update_firmware`,
entered right after device validation: create the temporary mount point, mount,
run hpsum, best-effort unmount on the normal path, and always remove the
directory. -/
def mountAndUpdate (env : Env) (vmedia_device_file : String) : UFOutcome × List Event :=
  match env.mountError with
  | some e =>
      (.opError ("Unable to mount virtual media device " ++ vmedia_device_file ++ ": " ++ e),
       [.mkdtemp env.tmpdir, .mountCall vmedia_device_file env.tmpdir,
        .rmtreeCall env.tmpdir env.rmtreeOk])
  | none =>
      match _execute_hpsum (osPathJoin env.tmpdir HPSUM_LOCATION) (pyComponents env.component)
          env.hpsumProc env.logFile with
      | .ret result =>
          (.ret result,
           [.mkdtemp env.tmpdir, .mountCall vmedia_device_file env.tmpdir,
            .execCall (osPathJoin env.tmpdir HPSUM_LOCATION)
              (hpsumCmd (pyComponents env.component)),
            .umountCall env.tmpdir env.umountOk,
            .rmtreeCall env.tmpdir env.rmtreeOk])
      | .opError reason =>
          (.opError reason,
           [.mkdtemp env.tmpdir, .mountCall vmedia_device_file env.tmpdir,
            .execCall (osPathJoin env.tmpdir HPSUM_LOCATION)
              (hpsumCmd (pyComponents env.component)),
            .rmtreeCall env.tmpdir env.rmtreeOk])

/-- The function `update_firmware`: validate the image reference, eject and
insert virtual media, wait, scan the by-label directory, check existence of the
found device, verify its checksum, then run `mountAndUpdate`. -/
def update_firmware (env : Env) : UFOutcome × List Event :=
  match env.hrefError with
  | some e => (.opError e, [])
  | none =>
  match env.ejectError with
  | some e => (.iloError e, [])
  | none =>
  match env.insertError with
  | some e => (.iloError e, [])
  | none =>
  match lastMatch env.listing with
  | none => (.unboundLocal, [])
  | some file =>
    if env.pathExists (osPathJoin vmedia_device_dir file) = false then
      (.opError "Unable to find the virtual media device for HPSUM", [])
    else
      match env.checksumError with
      | some e => (.opError e, [])
      | none => mountAndUpdate env (osPathJoin vmedia_device_dir file)

/-- Whether the temporary directory still exists after the recorded trace:
created by `mkdtemp`, removed by a successful `rmtree`. -/
def dirExistsAfter (tr : List Event) : Bool :=
  tr.foldl
    (fun ex e =>
      match e with
      | .mkdtemp _ => true
      | .rmtreeCall _ ok => if ok then false else ex
      | _ => ex) false

/-- Environment of claim C1: every earlier step succeeds and the by-label
directory holds no entry matching `SPP*`. -/
def envC1 : Env :=
  { hrefError := none, ejectError := none, insertError := none,
    listing := ["OTHER-1"], pathExists := fun _ => true, checksumError := none,
    tmpdir := "/tmp/tmpC1", mountError := none, component := none,
    hpsumProc := .ok "" "", logFile := none, umountOk := true, rmtreeOk := true }

/-- Environment of claim C2: every step succeeds and the hpsum process exits
with status zero (the process layer reports no failure). -/
def envC2 : Env :=
  { hrefError := none, ejectError := none, insertError := none,
    listing := ["SPP-2024", "OTHER-1"], pathExists := fun _ => true, checksumError := none,
    tmpdir := "/tmp/tmpC2", mountError := none, component := none,
    hpsumProc := .ok "hpsum stdout" "", logFile := some "log text", umountOk := true,
    rmtreeOk := true }

/-- Count, following the specification's words, of the non-empty segments that
contain the substring `Success`. -/
def specSuccessCount (segs : List (List Char)) : Nat :=
  ((segs.filter fun l => !l.isEmpty).filter fun l => containsSub l successWord).length

/-- Count, following the specification's words, of the non-empty segments that
do not contain the substring `Success`. -/
def specFailedCount (segs : List (List Char)) : Nat :=
  ((segs.filter fun l => !l.isEmpty).filter fun l => !containsSub l successWord).length

/-- Classifier output computed following the words of claim C5 (spec side of
the refinement): take the region of the file content between the markers
`Deployed Components:` and `Exit status:`, split it on blank-line boundaries,
count each non-empty segment as success when it contains the substring
`Success` and as failed otherwise, and format the summary with
total = success + failed. -/
def specClassifySummary (code : Int) (content : String) : String :=
  let region : List Char :=
    match pyFindAux deployedMarker.data content.data 0,
        pyFindAux exitMarker.data content.data 0 with
    | some i, some j => (content.data.take j).drop (i + deployedMarker.data.length)
    | _, _ => []
  let segs := splitNN region
  "Summary: " ++ pyStr (EXIT_CODE_TO_STRING code)
    ++ " Status of updated components: Total: "
    ++ toString (specSuccessCount segs + specFailedCount segs) ++ " Success: "
    ++ toString (specSuccessCount segs) ++ " Failed: "
    ++ toString (specFailedCount segs) ++ "."

/-- Environment of claim C3's witness: the mount command fails after the
temporary directory was created. -/
def envC3 : Env :=
  { hrefError := none, ejectError := none, insertError := none,
    listing := ["SPP-2024"], pathExists := fun _ => true, checksumError := none,
    tmpdir := "/tmp/tmpC3", mountError := some "mount failed", component := none,
    hpsumProc := .ok "" "", logFile := none, umountOk := true, rmtreeOk := true }

/-- Environment of claim C6's counterexample: two listing entries match `SPP*`. -/
def envC6 : Env :=
  { hrefError := none, ejectError := none, insertError := none,
    listing := ["SPP-1", "SPP-2"], pathExists := fun _ => true, checksumError := none,
    tmpdir := "/tmp/tmpC6", mountError := none, component := none,
    hpsumProc := .ok "" "", logFile := none, umountOk := true, rmtreeOk := true }

/-- Environment of claim C7's counterexample: the mount succeeds and the hpsum
process reports the unclassifiable exit code 42, so the executor raises. -/
def envC7 : Env :=
  { hrefError := none, ejectError := none, insertError := none,
    listing := ["SPP-2024"], pathExists := fun _ => true, checksumError := none,
    tmpdir := "/tmp/tmpC7", mountError := none, component := none,
    hpsumProc := .fails 42 "boom", logFile := none, umountOk := true, rmtreeOk := true }

/-- Environment of claim C7's witness: the mount succeeds and the executor
returns normally (classified failure exit 253). -/
def envC7w : Env :=
  { hrefError := none, ejectError := none, insertError := none,
    listing := ["SPP-2024"], pathExists := fun _ => true, checksumError := none,
    tmpdir := "/tmp/tmpC7w", mountError := none, component := none,
    hpsumProc := .fails 253 "failed", logFile := none, umountOk := true, rmtreeOk := true }

/-- Helper: a string append with a non-empty left part is non-empty. -/
theorem append_ne_empty_left (s t : String) (h : s ≠ "") : s ++ t ≠ "" := by
  intro hc
  have h2 := congrArg String.length hc
  simp only [String.length_append, show ("" : String).length = 0 from rfl] at h2
  apply h
  cases s with
  | mk data =>
      cases data with
      | nil => rfl
      | cons c cs =>
          exfalso
          have h3 : (String.mk (c :: cs)).length = cs.length + 1 := by simp [String.length]
          omega

/-- Helper: a string append with a non-empty right part is non-empty. -/
theorem append_ne_empty_right (s t : String) (h : t ≠ "") : s ++ t ≠ "" := by
  intro hc
  have h2 := congrArg String.length hc
  simp only [String.length_append, show ("" : String).length = 0 from rfl] at h2
  apply h
  cases t with
  | mk data =>
      cases data with
      | nil => rfl
      | cons c cs =>
          exfalso
          have h3 : (String.mk (c :: cs)).length = cs.length + 1 := by simp [String.length]
          omega

/-- Helper: whatever `_parse_hpsum_ouput` classifies is a non-empty string, so
the Python truthiness test `if result:` never rejects a classification. -/
theorem parse_result_ne_empty (code : Int) (log : Option String) (r : String)
    (h : _parse_hpsum_ouput code log = some r) : r ≠ "" := by
  unfold _parse_hpsum_ouput at h
  split at h
  · injection h with h2
    subst h2
    exact append_ne_empty_left _ _ (by decide)
  · split at h
    · cases log with
      | some content =>
          injection h with h2
          subst h2
          exact append_ne_empty_right _ _ (by decide)
      | none =>
          injection h with h2
          subst h2
          decide
    · exact absurd h (by simp)

/-- C1 (code bug): with a by-label listing in which no entry matches `SPP*`,
the local `vmedia_device_file` is never assigned, so `update_firmware` raises
`UnboundLocalError` at the `os.path.exists` test instead of the documented
`HpsumOperationError` whose reason is the virtual-media-device-not-found
message. -/
theorem C1_no_match_unbound_local :
    (∀ f ∈ envC1.listing, matchSPP f = false) ∧
    update_firmware envC1 = (UFOutcome.unboundLocal, []) ∧
    (update_firmware envC1).1 ≠
      UFOutcome.opError "Unable to find the virtual media device for HPSUM" := by
  refine ⟨by decide, rfl, ?_⟩
  intro h
  exact UFOutcome.noConfusion h

/-- C2 (code bug): when the hpsum process exits with status zero, the source of
`_execute_hpsum` falls off the end of the function without a return statement,
so the executor returns Python `None` (not the process's standard output), and
`update_firmware` therefore returns `None` to its caller instead of an
operation-status string. -/
theorem C2_zero_exit_returns_none :
    _execute_hpsum "/tmp/tmpC2/hp/swpackages/hpsum" none (ProcResult.ok "hpsum stdout" "")
        (some "log text") = HpsumResult.ret none ∧
    (update_firmware envC2).1 = UFOutcome.ret none ∧
    ∀ s : String, (update_firmware envC2).1 ≠ UFOutcome.ret (some s) := by
  refine ⟨rfl, rfl, ?_⟩
  intro s h
  exact Option.noConfusion (UFOutcome.ret.inj h)

/-- C8: for exit code 3 the classifier returns exactly the fixed summary
string, for every state of the log file (the result does not depend on the
`logFile` argument, i.e. the log is not read). -/
theorem C8_exit_code_3 (logFile : Option String) :
    _parse_hpsum_ouput 3 logFile =
      some "Summary: The smart component was not installed. Node is already up-to-date." :=
  rfl

/-- C9: for every exit code in {0, 1, 253}, when the log file does not exist
the classifier returns exactly the literal sentinel. -/
theorem C9_missing_log (code : Int) (h : code = 0 ∨ code = 1 ∨ code = 253) :
    _parse_hpsum_ouput code none = some "UPDATE STATUS: UNKNOWN" := by
  rcases h with h | h | h <;> subst h <;> rfl

/-- Witness for C9 at exit code 0. -/
theorem C9_missing_log_witness :
    ((0 : Int) = 0 ∨ (0 : Int) = 1 ∨ (0 : Int) = 253) ∧
      _parse_hpsum_ouput 0 none = some "UPDATE STATUS: UNKNOWN" :=
  ⟨Or.inl rfl, C9_missing_log 0 (Or.inl rfl)⟩

/-- Helper: a normalised slice bound never exceeds the length. -/
theorem normIdx_le (len : Nat) (i : Int) : normIdx len i ≤ len := by
  unfold normIdx
  split
  · omega
  · omega

/-- Helper: the normalised form of the slice bound `-1` is `len - 1`. -/
theorem normIdx_neg_one (len : Nat) : normIdx len (-1) = len - 1 := by
  unfold normIdx
  rw [if_pos (by omega)]
  omega

/-- Helper: dropping `min k len` elements of a list not longer than `len`
equals dropping `k` elements. -/
theorem drop_min_eq {α : Type} (xs : List α) (len : Nat) (hx : xs.length ≤ len) (k : Nat) :
    xs.drop (min k len) = xs.drop k := by
  rcases le_total k len with h | h
  · rw [min_eq_left h]
  · rw [min_eq_right h]
    rw [List.drop_eq_nil_of_le (by omega), List.drop_eq_nil_of_le (by omega)]

/-- C10: for exit codes in {0, 1, 253} and an existing log file the classifier
always returns the summary built from the sliced region
`content[find('Deployed Components:') + 20 : find('Exit status:')]`, even when
a marker is absent: a missing start marker makes the region begin at character
index 19, and a missing end marker makes it end one character before the end of
the content. -/
theorem C10_missing_markers (code : Int) (content : String)
    (h : code = 0 ∨ code = 1 ∨ code = 253) :
    _parse_hpsum_ouput code (some content) =
      some (summaryString (pyStr (EXIT_CODE_TO_STRING code))
        (countSegs (splitNN (retData content.data))).1
        (countSegs (splitNN (retData content.data))).2) ∧
    retData content.data =
      pySlice content.data (pyFind content.data deployedMarker.data + 20)
        (pyFind content.data exitMarker.data) ∧
    (pyFind content.data deployedMarker.data = -1 →
      retData content.data =
        (content.data.take (normIdx content.data.length
          (pyFind content.data exitMarker.data))).drop 19) ∧
    (pyFind content.data exitMarker.data = -1 →
      retData content.data =
        (content.data.take (content.data.length - 1)).drop
          (normIdx content.data.length (pyFind content.data deployedMarker.data + 20))) := by
  have hdl : (deployedMarker.length : Int) = 20 := rfl
  refine ⟨?_, ?_, ?_, ?_⟩
  · rcases h with h | h | h <;> subst h <;> rfl
  · unfold retData
    rw [hdl]
  · intro hmiss
    unfold retData
    rw [hdl, hmiss]
    show pySlice content.data 19 _ = _
    unfold pySlice
    have h19 : normIdx content.data.length 19 = min 19 content.data.length := by
      unfold normIdx
      rw [if_neg (by omega)]
      rfl
    rw [h19]
    exact drop_min_eq _ _ (by rw [List.length_take]; omega) 19
  · intro hmiss
    unfold retData
    rw [hdl, hmiss, pySlice, normIdx_neg_one]

/-- Witness for C10: exit code 0 with an existing empty log file yields the
all-zero summary. -/
theorem C10_missing_markers_witness :
    ((0 : Int) = 0 ∨ (0 : Int) = 1 ∨ (0 : Int) = 253) ∧
    _parse_hpsum_ouput 0 (some "") =
      some ("Summary: The smart component was installed successfully. "
        ++ "Status of updated components: Total: 0 Success: 0 Failed: 0.") := by
  refine ⟨Or.inl rfl, ?_⟩
  rw [(C10_missing_markers 0 "" (Or.inl rfl)).1]
  rfl

/-- Helper: for exit codes in the table the classifier yields a classification. -/
theorem parse_classified (code : Int) (log : Option String)
    (h : code = 0 ∨ code = 1 ∨ code = 3 ∨ code = 253) :
    ∃ r, _parse_hpsum_ouput code log = some r := by
  unfold _parse_hpsum_ouput
  by_cases h3 : code = 3
  · rw [if_pos h3]
    exact ⟨_, rfl⟩
  · rw [if_neg h3, if_pos (by tauto)]
    cases log with
    | some content => exact ⟨_, rfl⟩
    | none => exact ⟨_, rfl⟩

/-- Helper: for exit codes outside the table the classifier yields no
classification. -/
theorem parse_unrecognized (code : Int) (log : Option String)
    (h : ¬(code = 0 ∨ code = 1 ∨ code = 3 ∨ code = 253)) :
    _parse_hpsum_ouput code log = none := by
  unfold _parse_hpsum_ouput
  rw [if_neg (by tauto), if_neg (by tauto)]

/-- Helper: for a reported failure with a table exit code, `_execute_hpsum`
returns the classified summary as a normal return value. -/
theorem exec_classified (hpsum_file_path : String) (components : Option (List String))
    (code : Int) (errStr : String) (log : Option String)
    (h : code = 0 ∨ code = 1 ∨ code = 3 ∨ code = 253) :
    ∃ r, _parse_hpsum_ouput code log = some r ∧
      _execute_hpsum hpsum_file_path components (ProcResult.fails code errStr) log
        = HpsumResult.ret (some r) := by
  obtain ⟨r, hr⟩ := parse_classified code log h
  refine ⟨r, hr, ?_⟩
  unfold _execute_hpsum
  simp only [hr]
  rw [if_neg (parse_result_ne_empty code log r hr)]

/-- Helper: for a reported failure with an exit code outside the table,
`_execute_hpsum` raises the operation error embedding the process failure
detail. -/
theorem exec_unrecognized (hpsum_file_path : String) (components : Option (List String))
    (code : Int) (errStr : String) (log : Option String)
    (h : ¬(code = 0 ∨ code = 1 ∨ code = 3 ∨ code = 253)) :
    _execute_hpsum hpsum_file_path components (ProcResult.fails code errStr) log
      = HpsumResult.opError
          ("Unable to perform hpsum firmware update on the node. Error: " ++ errStr) := by
  unfold _execute_hpsum
  simp only [parse_unrecognized code log h]

/-- C4: on a reported non-zero exit the Update Executor raises an operation
error iff the exit code is outside {0, 1, 3, 253}; for table codes it returns
the classified summary as a normal return value, and for any other code the
classifier yields no classification and the executor raises
`HpsumOperationError` embedding the original process failure detail. -/
theorem C4_error_iff_unrecognized (hpsum_file_path : String)
    (components : Option (List String)) (code : Int) (errStr : String)
    (log : Option String) :
    ((∃ reason, _execute_hpsum hpsum_file_path components (ProcResult.fails code errStr) log
        = HpsumResult.opError reason) ↔
      ¬(code = 0 ∨ code = 1 ∨ code = 3 ∨ code = 253)) ∧
    ((code = 0 ∨ code = 1 ∨ code = 3 ∨ code = 253) →
      ∃ r, _parse_hpsum_ouput code log = some r ∧
        _execute_hpsum hpsum_file_path components (ProcResult.fails code errStr) log
          = HpsumResult.ret (some r)) ∧
    (¬(code = 0 ∨ code = 1 ∨ code = 3 ∨ code = 253) →
      _parse_hpsum_ouput code log = none ∧
      _execute_hpsum hpsum_file_path components (ProcResult.fails code errStr) log
        = HpsumResult.opError
            ("Unable to perform hpsum firmware update on the node. Error: " ++ errStr)) := by
  refine ⟨⟨?_, ?_⟩, ?_, ?_⟩
  · rintro ⟨reason, hre⟩ htab
    obtain ⟨r, _, hexec⟩ := exec_classified hpsum_file_path components code errStr log htab
    rw [hexec] at hre
    exact HpsumResult.noConfusion hre
  · intro h
    exact ⟨_, exec_unrecognized hpsum_file_path components code errStr log h⟩
  · exact exec_classified hpsum_file_path components code errStr log
  · intro h
    exact ⟨parse_unrecognized code log h,
      exec_unrecognized hpsum_file_path components code errStr log h⟩

/-- Witness for C4 at the unrecognized exit code 42. -/
theorem C4_error_iff_unrecognized_witness :
    _parse_hpsum_ouput 42 none = none ∧
    _execute_hpsum "/mnt/hp/swpackages/hpsum" none (ProcResult.fails 42 "boom") none
      = HpsumResult.opError
          "Unable to perform hpsum firmware update on the node. Error: boom" := by
  have h := (C4_error_iff_unrecognized "/mnt/hp/swpackages/hpsum" none 42 "boom" none).2.2
    (by decide)
  exact ⟨h.1, by rw [h.2]; rfl⟩

/-- Helper: unfolding of the spec-side success count over one more segment. -/
theorem specSuccessCount_cons (l : List Char) (t : List (List Char)) :
    specSuccessCount (l :: t) =
      if !l.isEmpty && containsSub l successWord then specSuccessCount t + 1
      else specSuccessCount t := by
  unfold specSuccessCount
  rw [List.filter_cons]
  by_cases he : l.isEmpty
  · simp [he]
  · simp only [Bool.not_eq_true] at he
    by_cases hc : containsSub l successWord
    · simp [he, hc, List.filter_cons]
    · simp only [Bool.not_eq_true] at hc
      simp [he, hc, List.filter_cons]

/-- Helper: unfolding of the spec-side failed count over one more segment. -/
theorem specFailedCount_cons (l : List Char) (t : List (List Char)) :
    specFailedCount (l :: t) =
      if !l.isEmpty && !containsSub l successWord then specFailedCount t + 1
      else specFailedCount t := by
  unfold specFailedCount
  rw [List.filter_cons]
  by_cases he : l.isEmpty
  · simp [he]
  · simp only [Bool.not_eq_true] at he
    by_cases hc : containsSub l successWord
    · simp [he, hc, List.filter_cons]
    · simp only [Bool.not_eq_true] at hc
      simp [he, hc, List.filter_cons]

/-- Helper: the imperative counter fold equals the spec-side filter counts,
for any starting accumulator. -/
theorem countSegs_go (segs : List (List Char)) (s f : Nat) :
    segs.foldl countStep (s, f) = (s + specSuccessCount segs, f + specFailedCount segs) := by
  induction segs generalizing s f with
  | nil => simp [specSuccessCount, specFailedCount]
  | cons l t ih =>
      rw [List.foldl_cons, specSuccessCount_cons, specFailedCount_cons]
      by_cases he : l.isEmpty
      · have hstep : countStep (s, f) l = (s, f) := by simp [countStep, he]
        rw [hstep, ih, he]
        simp
      · have he2 : l.isEmpty = false := by simpa using he
        by_cases hc : containsSub l successWord
        · have hstep : countStep (s, f) l = (s + 1, f) := by simp [countStep, he2, hc]
          rw [hstep, ih, he2, hc]
          simp only [Bool.not_false, Bool.not_true, Bool.true_and, Bool.and_false,
            Bool.and_true, Prod.mk.injEq]
          norm_num
          omega
        · have hc2 : containsSub l successWord = false := by simpa using hc
          have hstep : countStep (s, f) l = (s, f + 1) := by simp [countStep, he2, hc2]
          rw [hstep, ih, he2, hc2]
          simp only [Bool.not_false, Bool.not_true, Bool.true_and, Bool.and_false,
            Bool.and_true, Prod.mk.injEq]
          norm_num
          omega

/-- Helper: the counters of `_parse_hpsum_ouput` are the spec-side counts. -/
theorem countSegs_spec (segs : List (List Char)) :
    countSegs segs = (specSuccessCount segs, specFailedCount segs) := by
  unfold countSegs
  rw [countSegs_go]
  simp

/-- Helper: soundness of the find scan — a hit at `k` starting from offset `i`
lies within the list and the pattern occurs there. -/
theorem pyFindAux_spec (pat : List Char) (s : List Char) :
    ∀ (i k : Nat), pyFindAux pat s i = some k →
      i ≤ k ∧ k - i ≤ s.length ∧ (s.drop (k - i)).take pat.length = pat := by
  induction s with
  | nil =>
      intro i k h
      unfold pyFindAux at h
      split at h
      · injection h with h2
        subst h2
        refine ⟨Nat.le_refl _, by simp, ?_⟩
        simp_all
      · exact Option.noConfusion h
  | cons c t ih =>
      intro i k h
      unfold pyFindAux at h
      split at h
      · injection h with h2
        subst h2
        simpa using (by assumption : (c :: t).take pat.length = pat)
      · obtain ⟨h1, h2, h3⟩ := ih (i + 1) k h
        refine ⟨by omega, by simp; omega, ?_⟩
        rw [show k - i = (k - (i + 1)) + 1 from by omega, List.drop_succ_cons]
        exact h3

/-- Helper: a find hit leaves room for the whole pattern inside the list. -/
theorem pyFindAux_le (pat s : List Char) (k : Nat) (h : pyFindAux pat s 0 = some k) :
    k + pat.length ≤ s.length := by
  obtain ⟨-, h2, h3⟩ := pyFindAux_spec pat s 0 k h
  have h4 := congrArg List.length h3
  rw [List.length_take, List.length_drop] at h4
  omega

/-- Helper: when both markers occur in the log content, the sliced region of
`_parse_hpsum_ouput` is exactly the region between the first occurrences of the
two markers. -/
theorem retData_markers (content : String)
    (h1 : 0 ≤ pyFind content.data deployedMarker.data)
    (h2 : 0 ≤ pyFind content.data exitMarker.data) :
    ∃ i j : Nat, pyFindAux deployedMarker.data content.data 0 = some i ∧
      pyFindAux exitMarker.data content.data 0 = some j ∧
      retData content.data = (content.data.take j).drop (i + deployedMarker.data.length) := by
  cases hfi : pyFindAux deployedMarker.data content.data 0 with
  | none =>
      exfalso
      have hm1 : pyFind content.data deployedMarker.data = -1 := by
        unfold pyFind
        rw [hfi]
      rw [hm1] at h1
      omega
  | some i =>
      cases hfj : pyFindAux exitMarker.data content.data 0 with
      | none =>
          exfalso
          have hm1 : pyFind content.data exitMarker.data = -1 := by
            unfold pyFind
            rw [hfj]
          rw [hm1] at h2
          omega
      | some j =>
          refine ⟨i, j, rfl, rfl, ?_⟩
          have hleni := pyFindAux_le _ _ _ hfi
          have hlenj := pyFindAux_le _ _ _ hfj
          unfold retData pyFind
          rw [hfi, hfj]
          unfold pySlice
          have hna : normIdx content.data.length ((i : Int) + (deployedMarker.length : Int))
              = i + deployedMarker.data.length := by
            unfold normIdx
            rw [if_neg (by omega)]
            have : deployedMarker.length = deployedMarker.data.length := rfl
            omega
          have hnb : normIdx content.data.length (j : Int) = j := by
            unfold normIdx
            rw [if_neg (by omega)]
            omega
          rw [hna, hnb]

/-- C5: for exit codes in {0, 1, 253} with an existing log file in which both
markers occur, the classifier's output equals the summary computed by the
specification's procedure: region between the markers, blank-line split,
per-segment `Success` test, and the `Total/Success/Failed` format with
total = success + failed. -/
theorem C5_classifier_matches_spec (code : Int) (content : String)
    (h : code = 0 ∨ code = 1 ∨ code = 253)
    (h1 : 0 ≤ pyFind content.data deployedMarker.data)
    (h2 : 0 ≤ pyFind content.data exitMarker.data) :
    _parse_hpsum_ouput code (some content) = some (specClassifySummary code content) := by
  obtain ⟨i, j, hi, hj, hreg⟩ := retData_markers content h1 h2
  have hparse : _parse_hpsum_ouput code (some content) =
      some (summaryString (pyStr (EXIT_CODE_TO_STRING code))
        (countSegs (splitNN (retData content.data))).1
        (countSegs (splitNN (retData content.data))).2) := by
    rcases h with h | h | h <;> subst h <;> rfl
  rw [hparse]
  congr 1
  unfold specClassifySummary
  simp only [hi, hj]
  rw [hreg, countSegs_spec]
  rfl

/-- Witness for C5: exit code 0 and a log whose inter-marker region holds two
non-empty segments, exactly one containing `Success`, yields
total 2, success 1, failed 1. -/
theorem C5_classifier_matches_spec_witness :
    ((0 : Int) = 0 ∨ (0 : Int) = 1 ∨ (0 : Int) = 253) ∧
    0 ≤ pyFind ("Deployed Components:\nA Success\n\nB bad\nExit status: 0").data
      deployedMarker.data ∧
    0 ≤ pyFind ("Deployed Components:\nA Success\n\nB bad\nExit status: 0").data
      exitMarker.data ∧
    _parse_hpsum_ouput 0 (some "Deployed Components:\nA Success\n\nB bad\nExit status: 0")
      = some (specClassifySummary 0 "Deployed Components:\nA Success\n\nB bad\nExit status: 0") ∧
    specClassifySummary 0 "Deployed Components:\nA Success\n\nB bad\nExit status: 0"
      = ("Summary: The smart component was installed successfully. "
          ++ "Status of updated components: Total: 2 Success: 1 Failed: 1.") := by
  refine ⟨Or.inl rfl, by decide, by decide, ?_, by decide⟩
  exact C5_classifier_matches_spec 0 "Deployed Components:\nA Success\n\nB bad\nExit status: 0"
    (Or.inl rfl) (by decide) (by decide)

/-- Helper: the discovery fold returns the last match, falling back to the
accumulator. -/
theorem lastMatch_go (listing : List String) (acc : Option String) :
    listing.foldl (fun a file => if matchSPP file then some file else a) acc
      = ((listing.filter (fun f => matchSPP f)).getLast?).or acc := by
  induction listing generalizing acc with
  | nil => rfl
  | cons h t ih =>
      rw [List.foldl_cons, List.filter_cons]
      by_cases hm : matchSPP h
      · rw [if_pos hm, if_pos hm, ih, List.getLast?_cons]
        cases hg : (t.filter (fun f => matchSPP f)).getLast? with
        | none => simp [hg, Option.or]
        | some x => simp [hg, Option.or]
      · rw [if_neg hm, if_neg hm, ih]

/-- C6 counterexample: with by-label listing `[SPP-1, SPP-2]` the first entry
matching `SPP*` is `SPP-1`, but the device the code takes (and mounts) is built
from the last match `SPP-2`. -/
theorem C6_counterexample :
    matchSPP "SPP-1" = true ∧ matchSPP "SPP-2" = true ∧
    lastMatch ["SPP-1", "SPP-2"] = some "SPP-2" ∧
    lastMatch ["SPP-1", "SPP-2"] ≠ some "SPP-1" ∧
    Event.mountCall "/dev/disk/by-label/SPP-2" "/tmp/tmpC6" ∈ (update_firmware envC6).2 ∧
    ¬ Event.mountCall "/dev/disk/by-label/SPP-1" "/tmp/tmpC6" ∈ (update_firmware envC6).2 := by
  have ht : (update_firmware envC6).2 =
      [Event.mkdtemp "/tmp/tmpC6",
       Event.mountCall "/dev/disk/by-label/SPP-2" "/tmp/tmpC6",
       Event.execCall "/tmp/tmpC6/hp/swpackages/hpsum" "",
       Event.umountCall "/tmp/tmpC6" true,
       Event.rmtreeCall "/tmp/tmpC6" true] := rfl
  refine ⟨rfl, rfl, rfl, by decide, ?_, ?_⟩
  · rw [ht]
    decide
  · rw [ht]
    decide

/-- C6 amended: for every by-label listing, the candidate entry taken by the
discovery loop is the last entry of the listing matching `SPP*` (and in
particular the discovery succeeds exactly when some entry matches). -/
theorem C6_last_match_taken (listing : List String) :
    lastMatch listing = (listing.filter (fun f => matchSPP f)).getLast? := by
  unfold lastMatch
  rw [lastMatch_go]
  cases (listing.filter (fun f => matchSPP f)).getLast? <;> rfl

/-- Helper: every run of `update_firmware` either stops before the mount block
with an empty trace, or runs the mount block on some discovered device. -/
theorem update_firmware_reaches (env : Env) :
    (update_firmware env).2 = [] ∨ ∃ dev, update_firmware env = mountAndUpdate env dev := by
  unfold update_firmware
  repeat' split
  all_goals first
    | exact Or.inl rfl
    | exact Or.inr ⟨_, rfl⟩

/-- Helper: the outcome of `update_firmware` never depends on whether the
best-effort `umount` and `rmtree` cleanup steps themselves succeed. -/
theorem outcome_indep (env : Env) (b c : Bool) :
    (update_firmware {env with umountOk := c, rmtreeOk := b}).1 = (update_firmware env).1 := by
  rcases env with ⟨href, eject, insert, listing, pex, chk, tmp, mnt, comp, proc, log, uok, rok⟩
  unfold update_firmware mountAndUpdate
  cases href with
  | some e => rfl
  | none =>
  cases eject with
  | some e => rfl
  | none =>
  cases insert with
  | some e => rfl
  | none =>
  cases hl : lastMatch listing with
  | none => rfl
  | some file =>
  dsimp only
  by_cases hp : pex (osPathJoin vmedia_device_dir file) = false
  · rw [if_pos hp, if_pos hp]
  · rw [if_neg hp, if_neg hp]
    cases chk with
    | some e => rfl
    | none =>
    cases mnt with
    | some e => rfl
    | none =>
    cases _execute_hpsum (osPathJoin tmp HPSUM_LOCATION) (pyComponents comp) proc log with
    | ret r => rfl
    | opError reason => rfl

/-- Helper: the three possible trace shapes of the mount block — mount failure,
normal executor return with best-effort unmount, and executor failure without
unmount. -/
theorem mountAndUpdate_trace (env : Env) (dev : String) :
    (mountAndUpdate env dev).2 =
        [Event.mkdtemp env.tmpdir, Event.mountCall dev env.tmpdir,
         Event.rmtreeCall env.tmpdir env.rmtreeOk] ∨
    (mountAndUpdate env dev).2 =
        [Event.mkdtemp env.tmpdir, Event.mountCall dev env.tmpdir,
         Event.execCall (osPathJoin env.tmpdir HPSUM_LOCATION)
           (hpsumCmd (pyComponents env.component)),
         Event.umountCall env.tmpdir env.umountOk,
         Event.rmtreeCall env.tmpdir env.rmtreeOk] ∨
    (mountAndUpdate env dev).2 =
        [Event.mkdtemp env.tmpdir, Event.mountCall dev env.tmpdir,
         Event.execCall (osPathJoin env.tmpdir HPSUM_LOCATION)
           (hpsumCmd (pyComponents env.component)),
         Event.rmtreeCall env.tmpdir env.rmtreeOk] := by
  unfold mountAndUpdate
  repeat' split
  · exact Or.inl rfl
  · exact Or.inr (Or.inl rfl)
  · exact Or.inr (Or.inr rfl)

/-- C3: every execution of `update_firmware` that reaches creation of the
temporary mount directory removes it exactly once, on every outcome
(success, executor failure, mount failure): exactly one `rmtree` call is
recorded, it targets the temporary directory, the directory no longer exists
afterwards whenever the removal itself succeeds, and a removal failure is
suppressed — it never changes the outcome. -/
theorem C3_cleanup_invariant (env : Env)
    (h : Event.mkdtemp env.tmpdir ∈ (update_firmware env).2) :
    (update_firmware env).2.countP isRmtreeEvent = 1 ∧
    Event.rmtreeCall env.tmpdir env.rmtreeOk ∈ (update_firmware env).2 ∧
    (env.rmtreeOk = true → dirExistsAfter (update_firmware env).2 = false) ∧
    (∀ b : Bool, (update_firmware {env with rmtreeOk := b}).1 = (update_firmware env).1) := by
  refine ⟨?_, ?_, ?_, fun b => outcome_indep env b env.umountOk⟩ <;>
    rcases update_firmware_reaches env with h0 | ⟨dev, heq⟩ <;>
      (try (rw [h0] at h; exact absurd h (List.not_mem_nil _))) <;>
        rw [heq] <;>
          rcases mountAndUpdate_trace env dev with ht | ht | ht <;> rw [ht]
  · simp [List.countP_cons, isRmtreeEvent]
  · simp [List.countP_cons, isRmtreeEvent]
  · simp [List.countP_cons, isRmtreeEvent]
  · simp
  · simp
  · simp
  · intro hrm
    rw [hrm]
    rfl
  · intro hrm
    rw [hrm]
    rfl
  · intro hrm
    rw [hrm]
    rfl

/-- Witness for C3 on the mount-failure environment. -/
theorem C3_cleanup_invariant_witness :
    (Event.mkdtemp "/tmp/tmpC3" ∈ (update_firmware envC3).2) ∧
    (update_firmware envC3).2.countP isRmtreeEvent = 1 ∧
    Event.rmtreeCall "/tmp/tmpC3" true ∈ (update_firmware envC3).2 ∧
    dirExistsAfter (update_firmware envC3).2 = false ∧
    (update_firmware {envC3 with rmtreeOk := false}).1 = (update_firmware envC3).1 := by
  have ht : (update_firmware envC3).2 =
      [Event.mkdtemp "/tmp/tmpC3",
       Event.mountCall "/dev/disk/by-label/SPP-2024" "/tmp/tmpC3",
       Event.rmtreeCall "/tmp/tmpC3" true] := rfl
  have h := C3_cleanup_invariant envC3 (by rw [ht]; decide)
  exact ⟨by rw [ht]; decide, h.1, h.2.1, h.2.2.1 rfl, h.2.2.2 false⟩

/-- C7 counterexample: a run where the mount step succeeds but the executor
raises (unclassifiable exit 42): the call raises with no unmount attempted, so
the unmount is not attempted on every exit path after a successful mount. -/
theorem C7_counterexample :
    envC7.mountError = none ∧
    Event.mountCall "/dev/disk/by-label/SPP-2024" "/tmp/tmpC7" ∈ (update_firmware envC7).2 ∧
    (update_firmware envC7).1 =
      UFOutcome.opError "Unable to perform hpsum firmware update on the node. Error: boom" ∧
    (update_firmware envC7).2.countP isUmountEvent = 0 := by
  have ht : (update_firmware envC7).2 =
      [Event.mkdtemp "/tmp/tmpC7",
       Event.mountCall "/dev/disk/by-label/SPP-2024" "/tmp/tmpC7",
       Event.execCall "/tmp/tmpC7/hp/swpackages/hpsum" "",
       Event.rmtreeCall "/tmp/tmpC7" true] := rfl
  refine ⟨rfl, by rw [ht]; decide, by decide, by rw [ht]; decide⟩

/-- C7 amended: when the mount step succeeds, an unmount of the mount point is
attempted iff the Update Executor returns normally: on the normal path exactly
one unmount call is recorded and its failure is suppressed (it never changes
the outcome), while on executor failure no unmount is attempted — only the
directory removal runs. -/
theorem C7_unmount_on_success_path (env : Env) (dev : String)
    (hreach : update_firmware env = mountAndUpdate env dev)
    (hmnt : env.mountError = none) :
    ((∃ r, _execute_hpsum (osPathJoin env.tmpdir HPSUM_LOCATION) (pyComponents env.component)
        env.hpsumProc env.logFile = HpsumResult.ret r) →
      (update_firmware env).2.countP isUmountEvent = 1 ∧
      Event.umountCall env.tmpdir env.umountOk ∈ (update_firmware env).2 ∧
      ∀ c : Bool, (update_firmware {env with umountOk := c}).1 = (update_firmware env).1) ∧
    (∀ reason, _execute_hpsum (osPathJoin env.tmpdir HPSUM_LOCATION) (pyComponents env.component)
        env.hpsumProc env.logFile = HpsumResult.opError reason →
      (update_firmware env).2.countP isUmountEvent = 0) := by
  constructor
  · rintro ⟨r, hex⟩
    refine ⟨?_, ?_, fun c => outcome_indep env env.rmtreeOk c⟩
    · rw [hreach]
      unfold mountAndUpdate
      simp only [hmnt, hex]
      simp [List.countP_cons, isUmountEvent]
    · rw [hreach]
      unfold mountAndUpdate
      simp only [hmnt, hex]
      simp
  · intro reason hex
    rw [hreach]
    unfold mountAndUpdate
    simp only [hmnt, hex]
    simp [List.countP_cons, isUmountEvent]

/-- Witness for C7's amended theorem on a normal executor return. -/
theorem C7_unmount_on_success_path_witness :
    (update_firmware envC7w = mountAndUpdate envC7w "/dev/disk/by-label/SPP-2024") ∧
    envC7w.mountError = none ∧
    _execute_hpsum (osPathJoin "/tmp/tmpC7w" HPSUM_LOCATION) none
      (ProcResult.fails 253 "failed") none
      = HpsumResult.ret (some "UPDATE STATUS: UNKNOWN") ∧
    (update_firmware envC7w).2.countP isUmountEvent = 1 ∧
    Event.umountCall "/tmp/tmpC7w" true ∈ (update_firmware envC7w).2 ∧
    (update_firmware {envC7w with umountOk := false}).1 = (update_firmware envC7w).1 := by
  have h := C7_unmount_on_success_path envC7w "/dev/disk/by-label/SPP-2024" rfl rfl
  have h1 := h.1 ⟨some "UPDATE STATUS: UNKNOWN", by decide⟩
  exact ⟨rfl, rfl, by decide, h1.1, h1.2.1, h1.2.2 false⟩
